import Mathlib

/-!
Shallow embedding of `src/adx-mcp-server/server.py` (adx-mcp-server):
configuration record, Kusto client factory, result-set normalizer
(`format_query_results`) and the four MCP tool operations
(`execute_query`, `list_tables`, `get_table_schema`, `sample_table_data`),
together with theorems settling the specification claims.
-/

namespace AdxMcp

/-- A dynamically typed scalar value in a Kusto result row
(string, number, boolean or null as returned by the client library). -/
inductive Value where
  | str (s : String)
  | int (n : Int)
  | bool (b : Bool)
  | null
deriving DecidableEq, Repr

/-- Column metadata of a Kusto result table: `col.column_name`. -/
structure Column where
  column_name : String
deriving DecidableEq, Repr

/-- One result table, as consumed by `format_query_results`:
`primary_result.columns` and `primary_result.rows`. -/
structure PrimaryResult where
  columns : List Column
  rows : List (List Value)
deriving DecidableEq, Repr

/-- A Kusto result set: `result_set.primary_results` is a list of tables.
A `None` result set is modelled by `Option.none` at the use sites. -/
structure KustoResultSet where
  primary_results : List PrimaryResult
deriving DecidableEq, Repr

/-- A normalized record: column name to value, in Python dict insertion
order (`record[columns[i]] = value`). -/
abbrev Record := List (String × Value)

/-- Python dict assignment `d[k] = v`: if the key is present, its value is
updated in place (position kept); otherwise the pair is appended. -/
def dictInsert (d : Record) (k : String) (v : Value) : Record :=
  if d.any (fun p => p.1 = k) then
    d.map (fun p => if p.1 = k then (k, v) else p)
  else
    d ++ [(k, v)]

/-- The loop body of `format_query_results`:
`for i, value in enumerate(row): record[columns[i]] = value`.
Values are paired with the column name at the same position; when the
columns run out before the row does, Python raises `IndexError`
(`columns[i]` out of range), modelled by `none`. -/
def buildRecord (acc : Record) : List String → List Value → Option Record
  | _, [] => some acc
  | [], _ :: _ => none
  | c :: cs, v :: vs => buildRecord (dictInsert acc c v) cs vs

/-- The row loop of `format_query_results`: format each row in order,
appending the records; a raised `IndexError` in any row aborts the whole
call (`none`). -/
def formatRows (columns : List String) : List (List Value) → Option (List Record)
  | [] => some []
  | row :: rest =>
      match buildRecord [] columns row with
      | none => none
      | some record =>
          match formatRows columns rest with
          | none => none
          | some records => some (record :: records)

/-- Model of `format_query_results(result_set)` from `server.py`: empty list for a
null result set or one with no primary results; otherwise one record per
row of the first primary table.  `none` models the `IndexError` raised
when a row is longer than the column list. -/
def format_query_results (result_set : Option KustoResultSet) :
    Option (List Record) :=
  match result_set with
  | none => some []
  | some rs =>
      match rs.primary_results with
      | [] => some []
      | primary_result :: _ =>
          let columns := primary_result.columns.map Column.column_name
          formatRows columns primary_result.rows

/-- Python truthiness of an `Optional[str]` field: `None` and the empty
string are falsy. -/
def truthy : Option String → Bool
  | none => false
  | some s => s ≠ ""

/-- Model of `ADXConfig` from `server.py`: `cluster_url` and `database` are `str`,
the three credential fields are `Optional[str]` (defaulting to `None`). -/
structure ADXConfig where
  cluster_url : String
  database : String
  tenant_id : Option String := none
  client_id : Option String := none
  client_secret : Option String := none
deriving DecidableEq, Repr

/-- A Python error raised by the server code: `ValueError(msg)` from the
explicit `raise` statements, or the `IndexError` from `columns[i]`. -/
inductive PyError where
  | valueError (msg : String)
  | indexError
deriving DecidableEq, Repr

/-- The credentials error message raised by `get_kusto_client`. -/
def credsMissingMsg : String :=
  "Client credentials are missing. Please set AZURE_TENANT_ID, AZURE_CLIENT_ID, and AZURE_CLIENT_SECRET environment variables."

/-- The configuration error message raised by each of the four tools. -/
def configMissingMsg : String :=
  "Azure Data Explorer configuration is missing. Please set ADX_CLUSTER_URL and ADX_DATABASE environment variables."

/-- The authenticated client handle produced by `get_kusto_client`
(KustoClient built from the connection-string builder's inputs). -/
structure KustoClient where
  connection_string : String
  aad_app_id : Option String
  app_key : Option String
  authority_id : Option String
deriving DecidableEq, Repr

/-- Model of `get_kusto_client()` from `server.py`: fails with a `ValueError` when
`all([config.tenant_id, config.client_id, config.client_secret])` is
false (any field `None` or empty), otherwise constructs a client from the
cluster URL and the three credential fields. -/
def get_kusto_client (config : ADXConfig) : Except PyError KustoClient :=
  if ¬ (truthy config.tenant_id ∧ truthy config.client_id ∧
        truthy config.client_secret) then
    .error (.valueError credsMissingMsg)
  else
    .ok { connection_string := config.cluster_url
          aad_app_id := config.client_id
          app_key := config.client_secret
          authority_id := config.tenant_id }

/-- What an operation did to the outside world: how many times
`get_kusto_client` was entered, how many client handles were actually
constructed, and the `(database, query)` arguments of each
`client.execute` call, in order. -/
structure Trace where
  getClientCalls : Nat
  clientsConstructed : Nat
  executeCalls : List (String × String)
deriving DecidableEq, Repr

/-- The outcome of one tool invocation: the configuration as left behind
by the call (the source never assigns to it), the returned records or the
raised error, and the observable trace. -/
structure OpResult where
  config : ADXConfig
  result : Except PyError (List Record)
  trace : Trace
deriving Repr

/-- An oracle standing for the Kusto service: the result set that
`client.execute(database, query)` returns. -/
abbrev ExecOracle := String → String → Option KustoResultSet

/-- The shared body of the four tools after the query string is chosen:
check `not config.cluster_url or not config.database`, obtain the client,
execute the query against the configured database, normalize. -/
def runTool (config : ADXConfig) (exec : ExecOracle) (query : String) :
    OpResult :=
  if config.cluster_url = "" ∨ config.database = "" then
    { config := config
      result := .error (.valueError configMissingMsg)
      trace := ⟨0, 0, []⟩ }
  else
    match get_kusto_client config with
    | .error e =>
        { config := config, result := .error e, trace := ⟨1, 0, []⟩ }
    | .ok _client =>
        let result_set := exec config.database query
        { config := config
          result :=
            match format_query_results result_set with
            | none => .error .indexError
            | some records => .ok records
          trace := ⟨1, 1, [(config.database, query)]⟩ }

/-- Model of `execute_query(query)`: the query string is used verbatim. -/
def execute_query (config : ADXConfig) (exec : ExecOracle)
    (query : String) : OpResult :=
  runTool config exec query

/-- The fixed query issued by `list_tables`. -/
def listTablesQuery : String :=
  ".show tables | project TableName, Folder, DatabaseName"

/-- Model of `list_tables()`. -/
def list_tables (config : ADXConfig) (exec : ExecOracle) : OpResult :=
  runTool config exec listTablesQuery

/-- The query built by `get_table_schema`:
`f".show table {table_name} | getschema"`. -/
def getTableSchemaQuery (table_name : String) : String :=
  ".show table " ++ table_name ++ " | getschema"

/-- Model of `get_table_schema(table_name)`. -/
def get_table_schema (config : ADXConfig) (exec : ExecOracle)
    (table_name : String) : OpResult :=
  runTool config exec (getTableSchemaQuery table_name)

/-- The query built by `sample_table_data`:
`f"{table_name} | sample {sample_size}"`. -/
def sampleTableDataQuery (table_name : String) (sample_size : Int) :
    String :=
  table_name ++ " | sample " ++ toString sample_size

/-- Model of `sample_table_data(table_name, sample_size)`. -/
def sample_table_data (config : ADXConfig) (exec : ExecOracle)
    (table_name : String) (sample_size : Int) : OpResult :=
  runTool config exec (sampleTableDataQuery table_name sample_size)

/-- Model of `sample_table_data(table_name)` with the size parameter
omitted: Python applies the declared default `10`. -/
def sample_table_data_default (config : ADXConfig) (exec : ExecOracle)
    (table_name : String) : OpResult :=
  sample_table_data config exec table_name 10

/-- Substring containment: the character sequence of `pat`
occurs contiguously inside that of `s`. -/
def strContains (s pat : String) : Prop :=
  ∃ a b, s.data = a ++ (pat.data ++ b)

/-- Whether a tool invocation returned records (no error was raised). -/
def isOkResult : Except PyError (List Record) → Bool
  | .ok _ => true
  | .error _ => false

/-- The ordered column-name list of the primary (first) result table;
empty when the result set is null or has no primary results. -/
def primaryColumnNames (result_set : Option KustoResultSet) : List String :=
  match result_set with
  | none => []
  | some rs =>
      match rs.primary_results with
      | [] => []
      | p :: _ => p.columns.map Column.column_name

/-- The row list of the primary (first) result table; empty when the
result set is null or has no primary results. -/
def primaryRows (result_set : Option KustoResultSet) : List (List Value) :=
  match result_set with
  | none => []
  | some rs =>
      match rs.primary_results with
      | [] => []
      | p :: _ => p.rows

/-- Reference normalizer, written from the specification's words (§4.3):
a null result set or one with no primary table yields the empty sequence;
otherwise one record per row, in row order, pairing the column name at
position `j` of the primary table's column list with the row's value at
position `j`. -/
def normalize_spec (result_set : Option KustoResultSet) : List Record :=
  match result_set with
  | none => []
  | some rs =>
      match rs.primary_results with
      | [] => []
      | p :: _ =>
          p.rows.map (fun row => (p.columns.map Column.column_name).zip row)

/-- A fully populated configuration, for concrete instantiations. -/
def sampleConfig : ADXConfig :=
  { cluster_url := "https://testcluster.kusto.windows.net"
    database := "testdb"
    tenant_id := some "tenant"
    client_id := some "client"
    client_secret := some "secret" }

/-- A configuration whose cluster URL is empty. -/
def emptyUrlConfig : ADXConfig :=
  { cluster_url := ""
    database := "testdb"
    tenant_id := some "tenant"
    client_id := some "client"
    client_secret := some "secret" }

/-- A configuration with endpoint and database set but partial
credentials (absent client id, empty secret). -/
def partialCredsConfig : ADXConfig :=
  { cluster_url := "https://testcluster.kusto.windows.net"
    database := "testdb"
    tenant_id := some "tenant"
    client_id := none
    client_secret := some "" }

/-- The specification's example result set: columns
`[Column1, Column2]`, rows `[["Value1",1],["Value2",2]]`. -/
def exampleResultSet : Option KustoResultSet :=
  some ⟨[⟨[⟨"Column1"⟩, ⟨"Column2"⟩],
    [[.str "Value1", .int 1], [.str "Value2", .int 2]]⟩]⟩

/-- An oracle under which the service always returns the example
result set. -/
def sampleExec : ExecOracle := fun _ _ => exampleResultSet

/-- A result set whose single row is strictly shorter than its
two-column list. -/
def c4CexResultSet : Option KustoResultSet :=
  some ⟨[⟨[⟨"Column1"⟩, ⟨"Column2"⟩], [[.str "Value1"]]⟩]⟩

/-- A result set whose rows are no longer than the column list, one of
them strictly shorter. -/
def c10ResultSet : Option KustoResultSet :=
  some ⟨[⟨[⟨"a"⟩, ⟨"b"⟩, ⟨"c"⟩], [[.int 1, .int 2], [.int 3]]⟩]⟩

lemma dictInsert_of_not_mem (d : Record) (k : String) (v : Value)
    (h : k ∉ d.map Prod.fst) : dictInsert d k v = d ++ [(k, v)] := by
  unfold dictInsert
  rw [if_neg]
  simp only [List.any_eq_true, decide_eq_true_eq, not_exists]
  intro p hpc
  exact h (List.mem_map.mpr ⟨p, hpc.1, hpc.2⟩)

lemma dictInsert_map_fst_of_mem (d : Record) (k : String) (v : Value)
    (h : k ∈ d.map Prod.fst) :
    (dictInsert d k v).map Prod.fst = d.map Prod.fst := by
  unfold dictInsert
  rw [if_pos]
  · rw [List.map_map]
    apply List.map_congr_left
    intro p _
    by_cases hpk : p.1 = k
    · simp [hpk]
    · simp [hpk]
  · obtain ⟨p, hp, hpk⟩ := List.mem_map.mp h
    exact List.any_eq_true.mpr ⟨p, hp, by simpa using hpk⟩

lemma mem_dictInsert_map_fst (d : Record) (k : String) (v : Value)
    (k' : String) :
    k' ∈ (dictInsert d k v).map Prod.fst ↔
      k' ∈ d.map Prod.fst ∨ k' = k := by
  by_cases h : k ∈ d.map Prod.fst
  · rw [dictInsert_map_fst_of_mem d k v h]
    constructor
    · exact Or.inl
    · rintro (h' | rfl)
      · exact h'
      · exact h
  · rw [dictInsert_of_not_mem d k v h]
    simp

lemma buildRecord_isSome :
    ∀ (row : List Value) (cols : List String) (acc : Record),
      row.length ≤ cols.length → (buildRecord acc cols row).isSome = true := by
  intro row
  induction row with
  | nil => intro cols acc _; cases cols <;> rfl
  | cons v vs ih =>
      intro cols acc h
      cases cols with
      | nil => simp at h
      | cons c cs =>
          exact ih cs (dictInsert acc c v)
            (by simpa [Nat.succ_le_succ_iff] using h)

lemma buildRecord_keys :
    ∀ (row : List Value) (cols : List String) (acc rec : Record),
      buildRecord acc cols row = some rec →
      ∀ k, k ∈ rec.map Prod.fst ↔
        k ∈ acc.map Prod.fst ∨ k ∈ cols.take row.length := by
  intro row
  induction row with
  | nil =>
      intro cols acc rec h k
      cases cols <;> simp only [buildRecord, Option.some.injEq] at h <;>
        subst h <;> simp
  | cons v vs ih =>
      intro cols acc rec h k
      cases cols with
      | nil => simp [buildRecord] at h
      | cons c cs =>
          have h' : buildRecord (dictInsert acc c v) cs vs = some rec := h
          have := ih cs (dictInsert acc c v) rec h' k
          rw [this, mem_dictInsert_map_fst]
          simp only [List.length_cons, List.take_succ_cons, List.mem_cons]
          tauto

lemma buildRecord_eq_zip :
    ∀ (row : List Value) (cols : List String) (acc : Record),
      row.length ≤ cols.length →
      (cols.take row.length).Nodup →
      (∀ c ∈ cols.take row.length, c ∉ acc.map Prod.fst) →
      buildRecord acc cols row = some (acc ++ cols.zip row) := by
  intro row
  induction row with
  | nil =>
      intro cols acc _ _ _
      cases cols <;> simp [buildRecord]
  | cons v vs ih =>
      intro cols acc hlen hnd hfresh
      cases cols with
      | nil => simp at hlen
      | cons c cs =>
          simp only [List.length_cons, List.take_succ_cons] at hnd hfresh
          have hc : c ∉ acc.map Prod.fst :=
            hfresh c (List.mem_cons_self c _)
          have step : buildRecord acc (c :: cs) (v :: vs) =
              buildRecord (acc ++ [(c, v)]) cs vs := by
            simp [buildRecord, dictInsert_of_not_mem acc c v hc]
          rw [step, ih cs (acc ++ [(c, v)])
            (by simpa [Nat.succ_le_succ_iff] using hlen)
            hnd.of_cons ?_]
          · simp [List.zip_cons_cons, List.append_assoc]
          · intro c' hc'
            simp only [List.map_append, List.mem_append, List.map_cons,
              List.map_nil, List.mem_singleton, not_or]
            refine ⟨hfresh c' (List.mem_cons_of_mem c hc'), ?_⟩
            intro hcc
            exact (List.nodup_cons.mp hnd).1 (hcc ▸ hc')

lemma formatRows_eq_map (columns : List String) (g : List Value → Record) :
    ∀ (rows : List (List Value)),
      (∀ row ∈ rows, buildRecord [] columns row = some (g row)) →
      formatRows columns rows = some (rows.map g) := by
  intro rows
  induction rows with
  | nil => intro _; rfl
  | cons row rest ih =>
      intro h
      simp only [formatRows, h row (List.mem_cons_self row rest),
        ih (fun r hr => h r (List.mem_cons_of_mem row hr)), List.map_cons]

lemma formatRows_isSome (columns : List String) :
    ∀ (rows : List (List Value)),
      (∀ row ∈ rows, (buildRecord [] columns row).isSome = true) →
      (formatRows columns rows).isSome = true := by
  intro rows
  induction rows with
  | nil => intro _; rfl
  | cons row rest ih =>
      intro h
      obtain ⟨rec, hrec⟩ := Option.isSome_iff_exists.mp
        (h row (List.mem_cons_self row rest))
      obtain ⟨recs, hrecs⟩ := Option.isSome_iff_exists.mp
        (ih (fun r hr => h r (List.mem_cons_of_mem row hr)))
      simp [formatRows, hrec, hrecs]

/-- On result sets whose primary table has pairwise-distinct column names
and rows positionally aligned with the column list, the code's normalizer
agrees with the reference normalizer. -/
lemma format_eq_normalize_spec (rs : Option KustoResultSet)
    (hnd : (primaryColumnNames rs).Nodup)
    (hlen : ∀ row ∈ primaryRows rs,
      row.length = (primaryColumnNames rs).length) :
    format_query_results rs = some (normalize_spec rs) := by
  match rs with
  | none => rfl
  | some rsv =>
      match h : rsv.primary_results with
      | [] => simp [format_query_results, normalize_spec, h]
      | p :: rest =>
          simp only [primaryColumnNames, primaryRows, h] at hnd hlen
          simp only [format_query_results, normalize_spec, h]
          exact formatRows_eq_map _ _ p.rows (fun row hrow => by
            have hl := hlen row hrow
            refine buildRecord_eq_zip row _ [] (le_of_eq hl) ?_ (by simp)
            rw [hl, List.take_length]
            exact hnd)

/-- C1: for every configuration whose cluster URL or database name is the
empty string, each of the four operations fails with a `ValueError` whose
message contains "configuration is missing", before `get_kusto_client` is
invoked (no client handle is constructed and no execute call is made). -/
theorem C1_config_missing_rejected (config : ADXConfig)
    (exec : ExecOracle) (q t : String) (n : Int)
    (h : config.cluster_url = "" ∨ config.database = "") :
    execute_query config exec q =
      ⟨config, .error (.valueError configMissingMsg), ⟨0, 0, []⟩⟩ ∧
    list_tables config exec =
      ⟨config, .error (.valueError configMissingMsg), ⟨0, 0, []⟩⟩ ∧
    get_table_schema config exec t =
      ⟨config, .error (.valueError configMissingMsg), ⟨0, 0, []⟩⟩ ∧
    sample_table_data config exec t n =
      ⟨config, .error (.valueError configMissingMsg), ⟨0, 0, []⟩⟩ ∧
    strContains configMissingMsg "configuration is missing" := by
  refine ⟨?_, ?_, ?_, ?_,
    ⟨"Azure Data Explorer ".data,
     ". Please set ADX_CLUSTER_URL and ADX_DATABASE environment variables.".data,
     by decide⟩⟩ <;>
  · simp only [execute_query, list_tables, get_table_schema,
      sample_table_data, runTool, if_pos h]

/-- C1 witness: concrete instantiation at a configuration with an empty
cluster URL. -/
theorem C1_config_missing_rejected_witness :
    execute_query emptyUrlConfig sampleExec "Events | take 1" =
      ⟨emptyUrlConfig, .error (.valueError configMissingMsg), ⟨0, 0, []⟩⟩ ∧
    list_tables emptyUrlConfig sampleExec =
      ⟨emptyUrlConfig, .error (.valueError configMissingMsg), ⟨0, 0, []⟩⟩ ∧
    get_table_schema emptyUrlConfig sampleExec "Events" =
      ⟨emptyUrlConfig, .error (.valueError configMissingMsg), ⟨0, 0, []⟩⟩ ∧
    sample_table_data emptyUrlConfig sampleExec "Events" 5 =
      ⟨emptyUrlConfig, .error (.valueError configMissingMsg), ⟨0, 0, []⟩⟩ ∧
    strContains configMissingMsg "configuration is missing" :=
  C1_config_missing_rejected emptyUrlConfig sampleExec "Events | take 1"
    "Events" 5 (Or.inl rfl)

/-- C2: for every configuration with non-empty endpoint and database but
with any of the three credential fields absent or empty, each of the four
operations fails inside `get_kusto_client` with a `ValueError` whose
message contains "credentials are missing"; no client is constructed and
no execute call is made. -/
theorem C2_creds_missing_rejected (config : ADXConfig)
    (exec : ExecOracle) (q t : String) (n : Int)
    (hurl : ¬ config.cluster_url = "") (hdb : ¬ config.database = "")
    (hcred : ¬ (truthy config.tenant_id = true ∧
      truthy config.client_id = true ∧
      truthy config.client_secret = true)) :
    execute_query config exec q =
      ⟨config, .error (.valueError credsMissingMsg), ⟨1, 0, []⟩⟩ ∧
    list_tables config exec =
      ⟨config, .error (.valueError credsMissingMsg), ⟨1, 0, []⟩⟩ ∧
    get_table_schema config exec t =
      ⟨config, .error (.valueError credsMissingMsg), ⟨1, 0, []⟩⟩ ∧
    sample_table_data config exec t n =
      ⟨config, .error (.valueError credsMissingMsg), ⟨1, 0, []⟩⟩ ∧
    strContains credsMissingMsg "credentials are missing" := by
  have hne : ¬ (config.cluster_url = "" ∨ config.database = "") := by
    tauto
  refine ⟨?_, ?_, ?_, ?_,
    ⟨"Client ".data,
     ". Please set AZURE_TENANT_ID, AZURE_CLIENT_ID, and AZURE_CLIENT_SECRET environment variables.".data,
     by decide⟩⟩ <;>
  · simp only [execute_query, list_tables, get_table_schema,
      sample_table_data, runTool, get_kusto_client, if_neg hne,
      if_pos hcred]

/-- C2 witness: concrete instantiation at a configuration with valid
endpoint and database but an absent client id and an empty secret. -/
theorem C2_creds_missing_rejected_witness :
    execute_query partialCredsConfig sampleExec "Events | take 1" =
      ⟨partialCredsConfig, .error (.valueError credsMissingMsg),
        ⟨1, 0, []⟩⟩ ∧
    list_tables partialCredsConfig sampleExec =
      ⟨partialCredsConfig, .error (.valueError credsMissingMsg),
        ⟨1, 0, []⟩⟩ ∧
    get_table_schema partialCredsConfig sampleExec "Events" =
      ⟨partialCredsConfig, .error (.valueError credsMissingMsg),
        ⟨1, 0, []⟩⟩ ∧
    sample_table_data partialCredsConfig sampleExec "Events" 5 =
      ⟨partialCredsConfig, .error (.valueError credsMissingMsg),
        ⟨1, 0, []⟩⟩ ∧
    strContains credsMissingMsg "credentials are missing" :=
  C2_creds_missing_rejected partialCredsConfig sampleExec "Events | take 1"
    "Events" 5 (by decide) (by decide) (by decide)

/-- C3: on every result set whose primary table has distinct column names
and rows positionally aligned with the column list (as the specification's
data model stipulates), `format_query_results` coincides with the
reference normalizer `normalize_spec` written from the specification's
words: a null result set or one without primary results yields the empty
sequence without error, and otherwise each row of the first primary
table yields, in row order, the record pairing the column name at each
position with the row's value at that position. -/
theorem C3_normalizer_refinement (rs : Option KustoResultSet)
    (hnd : (primaryColumnNames rs).Nodup)
    (hlen : ∀ row ∈ primaryRows rs,
      row.length = (primaryColumnNames rs).length) :
    format_query_results rs = some (normalize_spec rs) :=
  format_eq_normalize_spec rs hnd hlen

/-- C3 witness: the specification's example — columns
`[Column1, Column2]`, rows `[["Value1",1],["Value2",2]]` — normalizes to
`[{Column1:"Value1",Column2:1},{Column1:"Value2",Column2:2}]`. -/
theorem C3_normalizer_refinement_witness :
    format_query_results exampleResultSet =
      some [[("Column1", Value.str "Value1"), ("Column2", Value.int 1)],
            [("Column1", Value.str "Value2"), ("Column2", Value.int 2)]] := by
  have h := C3_normalizer_refinement exampleResultSet (by decide) (by decide)
  rw [h]
  decide

/-- C4 counterexample: on a result set whose single row is strictly
shorter than the column list, the produced record's keys are not the full
column list, so the claim's unconditional invariant fails. -/
theorem C4_uniform_keys_counterexample :
    ¬ ∀ rec ∈ (format_query_results c4CexResultSet).getD [],
        rec.map Prod.fst = primaryColumnNames c4CexResultSet := by
  decide

/-- C4 (amended): on every result set whose primary table has distinct
column names and rows positionally aligned with the column list, every
record produced by `format_query_results` carries exactly the column-name
list of the primary table as its keys, in source order. -/
theorem C4_uniform_keys (rs : Option KustoResultSet)
    (hnd : (primaryColumnNames rs).Nodup)
    (hlen : ∀ row ∈ primaryRows rs,
      row.length = (primaryColumnNames rs).length) :
    ∀ rec ∈ (format_query_results rs).getD [],
      rec.map Prod.fst = primaryColumnNames rs := by
  intro rec hrec
  rw [format_eq_normalize_spec rs hnd hlen] at hrec
  simp only [Option.getD_some] at hrec
  match rs with
  | none => simp [normalize_spec] at hrec
  | some rsv =>
      match h : rsv.primary_results with
      | [] => simp [normalize_spec, h] at hrec
      | p :: rest =>
          simp only [normalize_spec, h] at hrec
          obtain ⟨row, hrow, rfl⟩ := List.mem_map.mp hrec
          simp only [primaryColumnNames, h]
          apply List.map_fst_zip
          have hl := hlen row (by
            simp only [primaryRows, h]
            exact hrow)
          simp only [primaryColumnNames, h] at hl
          exact le_of_eq hl.symm

/-- C4 witness: the amended invariant at the specification's example
result set, instantiated at its first record. -/
theorem C4_uniform_keys_witness :
    ([("Column1", Value.str "Value1"), ("Column2", Value.int 1)] :
        Record).map Prod.fst = primaryColumnNames exampleResultSet :=
  C4_uniform_keys exampleResultSet (by decide) (by decide)
    [("Column1", Value.str "Value1"), ("Column2", Value.int 1)] (by decide)

/-- C5: under a configuration that passes the endpoint/database check and
the credentials check, `execute_query q` issues exactly one execute call,
whose arguments are the configured database and the caller's query string
`q` completely unmodified, and returns the normalization of that call's
result (the normalizer's `IndexError` propagating as an error). -/
theorem C5_execute_query_verbatim (config : ADXConfig)
    (exec : ExecOracle) (q : String)
    (hurl : ¬ config.cluster_url = "") (hdb : ¬ config.database = "")
    (hcred : truthy config.tenant_id = true ∧
      truthy config.client_id = true ∧
      truthy config.client_secret = true) :
    (execute_query config exec q).trace.executeCalls =
      [(config.database, q)] ∧
    (execute_query config exec q).result =
      (match format_query_results (exec config.database q) with
        | none => Except.error PyError.indexError
        | some records => Except.ok records) := by
  have hne : ¬ (config.cluster_url = "" ∨ config.database = "") := by
    tauto
  simp only [execute_query, runTool, get_kusto_client, if_neg hne,
    if_neg (not_not_intro hcred)]
  constructor <;> trivial

/-- C5 witness: concrete instantiation at the sample configuration and
the example oracle. -/
theorem C5_execute_query_verbatim_witness :
    (execute_query sampleConfig sampleExec "StormEvents | take 2").trace.executeCalls =
      [(sampleConfig.database, "StormEvents | take 2")] ∧
    (execute_query sampleConfig sampleExec "StormEvents | take 2").result =
      (match format_query_results
          (sampleExec sampleConfig.database "StormEvents | take 2") with
        | none => Except.error PyError.indexError
        | some records => Except.ok records) :=
  C5_execute_query_verbatim sampleConfig sampleExec "StormEvents | take 2"
    (by decide) (by decide) (by decide)

/-- C6: every successful invocation of `list_tables` issues exactly one
execute call, against the configured database, whose query text is the
fixed literal `.show tables | project TableName, Folder, DatabaseName`;
in particular that text contains `.show tables`. -/
theorem C6_list_tables_query (config : ADXConfig) (exec : ExecOracle)
    (hok : isOkResult (list_tables config exec).result = true) :
    (list_tables config exec).trace.executeCalls =
      [(config.database,
        ".show tables | project TableName, Folder, DatabaseName")] ∧
    strContains listTablesQuery ".show tables" := by
  refine ⟨?_, ⟨[], " | project TableName, Folder, DatabaseName".data,
    by decide⟩⟩
  simp only [list_tables, runTool] at hok ⊢
  by_cases hc : config.cluster_url = "" ∨ config.database = ""
  · rw [if_pos hc] at hok
    simp [isOkResult] at hok
  · rw [if_neg hc] at hok ⊢
    cases hgk : get_kusto_client config with
    | error e =>
        rw [hgk] at hok
        simp [isOkResult] at hok
    | ok c => rfl

/-- C6 witness: concrete successful invocation at the sample
configuration and the example oracle. -/
theorem C6_list_tables_query_witness :
    (list_tables sampleConfig sampleExec).trace.executeCalls =
      [(sampleConfig.database,
        ".show tables | project TableName, Folder, DatabaseName")] ∧
    strContains listTablesQuery ".show tables" :=
  C6_list_tables_query sampleConfig sampleExec (by decide)

/-- C7: under a configuration that passes the endpoint/database check and
the credentials check, `get_table_schema t` issues exactly one execute
call whose query string is `.show table ` ++ t ++ ` | getschema` (the
table name interpolated unescaped); that query contains both
`.show table t` and `getschema` as substrings. -/
theorem C7_get_table_schema_query (config : ADXConfig)
    (exec : ExecOracle) (t : String)
    (hurl : ¬ config.cluster_url = "") (hdb : ¬ config.database = "")
    (hcred : truthy config.tenant_id = true ∧
      truthy config.client_id = true ∧
      truthy config.client_secret = true) :
    (get_table_schema config exec t).trace.executeCalls =
      [(config.database, ".show table " ++ t ++ " | getschema")] ∧
    strContains (getTableSchemaQuery t) (".show table " ++ t) ∧
    strContains (getTableSchemaQuery t) "getschema" := by
  have hne : ¬ (config.cluster_url = "" ∨ config.database = "") := by
    tauto
  refine ⟨?_, ?_, ?_⟩
  · simp only [get_table_schema, runTool, get_kusto_client, if_neg hne,
      if_neg (not_not_intro hcred)]
    rfl
  · refine ⟨[], " | getschema".data, ?_⟩
    simp [getTableSchemaQuery, String.data_append]
  · refine ⟨".show table ".data ++ t.data ++ " | ".data, [], ?_⟩
    have hsplit : (" | getschema" : String).data =
        (" | " : String).data ++ ("getschema" : String).data := by decide
    simp [getTableSchemaQuery, String.data_append, hsplit]

/-- C7 witness: concrete instantiation at table name `StormEvents`. -/
theorem C7_get_table_schema_query_witness :
    (get_table_schema sampleConfig sampleExec "StormEvents").trace.executeCalls =
      [(sampleConfig.database,
        ".show table " ++ "StormEvents" ++ " | getschema")] ∧
    strContains (getTableSchemaQuery "StormEvents")
      (".show table " ++ "StormEvents") ∧
    strContains (getTableSchemaQuery "StormEvents") "getschema" :=
  C7_get_table_schema_query sampleConfig sampleExec "StormEvents"
    (by decide) (by decide) (by decide)

/-- C8: under a configuration that passes the endpoint/database check and
the credentials check, `sample_table_data t n` issues exactly one execute
call whose query string is t ++ ` | sample ` ++ n; when the sample size
is omitted Python applies the declared default 10, and the issued query
contains `sample 10`. -/
theorem C8_sample_table_data_query (config : ADXConfig)
    (exec : ExecOracle) (t : String) (n : Int)
    (hurl : ¬ config.cluster_url = "") (hdb : ¬ config.database = "")
    (hcred : truthy config.tenant_id = true ∧
      truthy config.client_id = true ∧
      truthy config.client_secret = true) :
    (sample_table_data config exec t n).trace.executeCalls =
      [(config.database, t ++ " | sample " ++ toString n)] ∧
    (sample_table_data_default config exec t).trace.executeCalls =
      [(config.database, sampleTableDataQuery t 10)] ∧
    strContains (sampleTableDataQuery t 10) "sample 10" := by
  have hne : ¬ (config.cluster_url = "" ∨ config.database = "") := by
    tauto
  refine ⟨?_, ?_, ?_⟩
  · simp only [sample_table_data, runTool, get_kusto_client, if_neg hne,
      if_neg (not_not_intro hcred)]
    rfl
  · simp only [sample_table_data_default, sample_table_data, runTool,
      get_kusto_client, if_neg hne, if_neg (not_not_intro hcred)]
  · refine ⟨t.data ++ " | ".data, [], ?_⟩
    have hsplit : (" | sample " : String).data ++
        (toString (10 : Int)).data =
        (" | " : String).data ++ ("sample 10" : String).data := by decide
    simp [sampleTableDataQuery, String.data_append, ← hsplit]

/-- C8 witness: concrete instantiation at table name `StormEvents` and
sample size 5, and at the defaulted call. -/
theorem C8_sample_table_data_query_witness :
    (sample_table_data sampleConfig sampleExec "StormEvents" 5).trace.executeCalls =
      [(sampleConfig.database,
        "StormEvents" ++ " | sample " ++ toString (5 : Int))] ∧
    (sample_table_data_default sampleConfig sampleExec "StormEvents").trace.executeCalls =
      [(sampleConfig.database, sampleTableDataQuery "StormEvents" 10)] ∧
    strContains (sampleTableDataQuery "StormEvents" 10) "sample 10" :=
  C8_sample_table_data_query sampleConfig sampleExec "StormEvents" 5
    (by decide) (by decide) (by decide)

/-- C9: every invocation of any of the four operations, succeeding or
failing with either error kind, leaves the whole configuration record
(all five fields) unchanged. -/
theorem C9_config_unchanged (config : ADXConfig) (exec : ExecOracle)
    (q t : String) (n : Int) :
    (execute_query config exec q).config = config ∧
    (list_tables config exec).config = config ∧
    (get_table_schema config exec t).config = config ∧
    (sample_table_data config exec t n).config = config := by
  refine ⟨?_, ?_, ?_, ?_⟩ <;>
  · simp only [execute_query, list_tables, get_table_schema,
      sample_table_data, runTool]
    split
    · rfl
    · split <;> rfl

/-- C10: the normalizer is total on every result set whose primary rows
each hold at most as many values as there are columns, and a row strictly
shorter than the column list yields, without error, a record whose keys
are exactly the first `row.length` column names (rather than the full
column set). -/
theorem C10_short_rows_total (rs : Option KustoResultSet)
    (hrs : ∀ row ∈ primaryRows rs,
      row.length ≤ (primaryColumnNames rs).length)
    (cols : List String) (row : List Value)
    (hlen : row.length ≤ cols.length) :
    (format_query_results rs).isSome = true ∧
    ∃ rec, buildRecord [] cols row = some rec ∧
      ∀ k, k ∈ rec.map Prod.fst ↔ k ∈ cols.take row.length := by
  constructor
  · match rs with
    | none => rfl
    | some rsv =>
        match h : rsv.primary_results with
        | [] => simp [format_query_results, h]
        | p :: rest =>
            simp only [format_query_results, h]
            apply formatRows_isSome
            intro r hr
            apply buildRecord_isSome
            have := hrs r (by
              simp only [primaryRows, h]
              exact hr)
            simpa only [primaryColumnNames, h, List.length_map] using this
  · obtain ⟨rec, hrec⟩ := Option.isSome_iff_exists.mp
      (buildRecord_isSome row cols [] hlen)
    refine ⟨rec, hrec, fun k => ?_⟩
    have := buildRecord_keys row cols [] rec hrec k
    simpa using this

/-- C10 witness: a result set with a three-column primary table and a
strictly shorter row; the short row's record keys are exactly the first
column name. -/
theorem C10_short_rows_total_witness :
    (format_query_results c10ResultSet).isSome = true ∧
    ∃ rec, buildRecord [] ["a", "b", "c"] [Value.int 3] = some rec ∧
      ∀ k, k ∈ rec.map Prod.fst ↔
        k ∈ ["a", "b", "c"].take [Value.int 3].length :=
  C10_short_rows_total c10ResultSet (by decide) ["a", "b", "c"]
    [Value.int 3] (by decide)

end AdxMcp

section ModelEvaluation
open AdxMcp

example :
    format_query_results (some ⟨[⟨[⟨"Column1"⟩, ⟨"Column2"⟩],
      [[.str "Value1", .int 1], [.str "Value2", .int 2]]⟩]⟩) =
    some [[("Column1", .str "Value1"), ("Column2", .int 1)],
          [("Column1", .str "Value2"), ("Column2", .int 2)]] := by decide

example : format_query_results none = some [] := by decide

example : format_query_results (some ⟨[]⟩) = some [] := by decide

-- row longer than columns: IndexError
example :
    format_query_results (some ⟨[⟨[⟨"a"⟩], [[.int 1, .int 2]]⟩]⟩) = none := by
  decide

-- row shorter than columns: partial record
example :
    format_query_results (some ⟨[⟨[⟨"a"⟩, ⟨"b"⟩], [[.int 1]]⟩]⟩) =
    some [[("a", .int 1)]] := by decide

-- duplicate column names: dict update collapses keys
example :
    format_query_results (some ⟨[⟨[⟨"a"⟩, ⟨"a"⟩], [[.int 1, .int 2]]⟩]⟩) =
    some [[("a", .int 2)]] := by decide

end ModelEvaluation
